import Mathlib

/-!
Shallow embedding of the eco-score analysis pipeline of this repository
(src/api/index.js, src/unnamed/part_000 and src/api/analyze.js).

JavaScript numbers are modelled as `Option ℚ`, where `none` models NaN; every
numeric value actually reached by the pipeline is a dyadic rational on which
IEEE double arithmetic is exact, so the rational model agrees with the runtime
on all values appearing in the theorems below.  Network effects (the HEAD
probe, the GET fetch and the green-hosting registry lookup) are modelled by
passing their outcomes as explicit arguments.
-/

namespace EcoScore

/-- A JavaScript number: `none` models NaN. -/
abbrev JSNum := Option ℚ

/-- JavaScript `Math.round`: round half toward positive infinity. -/
def jsRound (q : ℚ) : ℤ := Int.floor (q + 1/2)

/-- `x.toFixed(d)` followed by `parseFloat`, as a rational: rounding to `d`
decimal places, ties toward the larger value. -/
def toFixedQ (d : ℕ) (q : ℚ) : ℚ := (Int.floor (q * (10 : ℚ) ^ d + 1/2) : ℚ) / (10 : ℚ) ^ d

/-- JS `+` on possibly-NaN numbers: NaN propagates. -/
def jsNumAdd (a b : JSNum) : JSNum :=
  match a, b with
  | some x, some y => some (x + y)
  | _, _ => none

/-- JS `-` on possibly-NaN numbers: NaN propagates. -/
def jsNumSub (a b : JSNum) : JSNum :=
  match a, b with
  | some x, some y => some (x - y)
  | _, _ => none

/-- JS `*` on possibly-NaN numbers: NaN propagates. -/
def jsNumMul (a b : JSNum) : JSNum :=
  match a, b with
  | some x, some y => some (x * y)
  | _, _ => none

/-- JS `/` on possibly-NaN numbers: NaN propagates.  Every divisor in the
source is a nonzero constant, so the division-by-zero case never arises. -/
def jsNumDiv (a b : JSNum) : JSNum :=
  match a, b with
  | some x, some y => some (x / y)
  | _, _ => none

/-- JS `Math.min`: NaN propagates. -/
def jsNumMin (a b : JSNum) : JSNum :=
  match a, b with
  | some x, some y => some (min x y)
  | _, _ => none

/-- JS `Math.max`: NaN propagates. -/
def jsNumMax (a b : JSNum) : JSNum :=
  match a, b with
  | some x, some y => some (max x y)
  | _, _ => none

/-- JS `Math.round` on a possibly-NaN number. -/
def jsNumRound (a : JSNum) : JSNum := a.map (fun q => ((jsRound q : ℤ) : ℚ))

/-- JS `<=` comparison: any comparison with NaN is false. -/
def jsNumLe (a b : JSNum) : Bool :=
  match a, b with
  | some x, some y => decide (x ≤ y)
  | _, _ => false

/-- JS `>=` comparison: any comparison with NaN is false. -/
def jsNumGe (a b : JSNum) : Bool :=
  match a, b with
  | some x, some y => decide (y ≤ x)
  | _, _ => false

/-- `x.toFixed(d)` + `parseFloat` on a possibly-NaN number:
`NaN.toFixed(d)` is `"NaN"` and `parseFloat("NaN")` is NaN. -/
def jsToFixed (d : ℕ) (a : JSNum) : JSNum := a.map (toFixedQ d)

/-- JS string truthiness of an optional field: `undefined` and `""` are falsy. -/
def jsTruthyStr (o : Option String) : Bool :=
  match o with
  | some s => decide (s ≠ "")
  | none => false

/-- JS `s || dflt` for an optional string field. -/
def jsOrStr (o : Option String) (dflt : String) : String :=
  match o with
  | some s => if s = "" then dflt else s
  | none => dflt

/-- JS `s || null` for an optional string field. -/
def jsOrNull (o : Option String) : Option String :=
  match o with
  | some s => if s = "" then none else some s
  | none => none

/-- JS `parseInt(s, 10)`: skip leading whitespace, optional sign, then the
longest prefix of decimal digits; no digits at all gives NaN (`none`). -/
def jsParseInt (s : String) : Option ℤ :=
  let cs := s.data.dropWhile (fun c => c = ' ')
  let signRest : ℤ × List Char :=
    match cs with
    | '-' :: r => (-1, r)
    | '+' :: r => (1, r)
    | r => (1, r)
  let ds := signRest.2.takeWhile Char.isDigit
  if ds.isEmpty then none
  else some (signRest.1 * ((ds.foldl (fun a c => a * 10 + (c.toNat - 48)) 0 : ℕ) : ℤ))

/-- The object returned by the green-hosting registry (`response.data` in
checkGreenHosting): fields may be absent (`undefined`). -/
structure GreenResp where
  green : Option Bool
  hostedby : Option String
  hostedbywebsite : Option String
deriving DecidableEq

/-- Outcome of the axios GET to the green-hosting registry: `failed` is a
network/timeout error (the catch branch); `ok none` is a response whose
`data` object is falsy. -/
inductive GreenLookup where
  | ok (data : Option GreenResp)
  | failed
deriving DecidableEq

/-- Outcome of the HEAD probe in calculatePageWeight: `failed` is a thrown
error; on success the `content-length` header may be absent. -/
inductive HeadOutcome where
  | ok (contentLength : Option String)
  | failed
deriving DecidableEq

/-- Outcome of the full GET fetch in calculatePageWeight: on success the body
has the given byte length. -/
inductive GetOutcome where
  | ok (byteLength : ℕ)
  | failed
deriving DecidableEq

/-- Hosting descriptor, as assembled by checkGreenHosting in
src/api/index.js (identical in src/unnamed/part_000). -/
structure HostingDescriptor where
  isGreen : Bool
  hostedBy : String
  hostedByWebsite : Option String
deriving DecidableEq

/-- checkGreenHosting (src/api/index.js lines 19-37, src/unnamed/part_000
lines 26-44), as a function of the registry-lookup outcome. -/
def checkGreenHosting (lookup : GreenLookup) : HostingDescriptor :=
  match lookup with
  | .ok (some d) =>
    match d.green with
    | some g =>
      { isGreen := g
        hostedBy := jsOrStr d.hostedby "Inconnu"
        hostedByWebsite := jsOrNull d.hostedbywebsite }
    | none => { isGreen := false, hostedBy := "Inconnu", hostedByWebsite := none }
  | .ok none => { isGreen := false, hostedBy := "Inconnu", hostedByWebsite := none }
  | .failed =>
    { isGreen := false, hostedBy := "Erreur de vérification", hostedByWebsite := none }

/-- The GET-fallback block of calculatePageWeight in src/api/index.js
(lines 51-57): on failure it substitutes a fixed 2 MiB default. -/
def calculatePageWeightGet (get : GetOutcome) : JSNum :=
  match get with
  | .ok n => some ((n : ℚ))
  | .failed => some (2 * 1024 * 1024)

/-- calculatePageWeight (src/api/index.js lines 40-58): HEAD probe first; a
truthy `content-length` header is returned through `parseInt` (which can give
NaN); otherwise fall back to the full GET fetch. -/
def calculatePageWeight (head : HeadOutcome) (get : GetOutcome) : JSNum :=
  match head with
  | .ok (some s) =>
    if s ≠ "" then (jsParseInt s).map (fun n => ((n : ℤ) : ℚ))
    else calculatePageWeightGet get
  | .ok none => calculatePageWeightGet get
  | .failed => calculatePageWeightGet get

/-- The GET-fallback block of calculatePageWeight in src/unnamed/part_000
(lines 57-65): on failure it throws instead of substituting a default. -/
def calculatePageWeightGetFixed (url : String) (get : GetOutcome) : Except String JSNum :=
  match get with
  | .ok n => .ok (some ((n : ℚ)))
  | .failed =>
    .error ("Impossible de récupérer le contenu de l\x27URL : " ++ url)

/-- calculatePageWeight of src/unnamed/part_000 (lines 47-66): same probe
chain, but total failure raises a fatal error. -/
def calculatePageWeightFixed (url : String) (head : HeadOutcome) (get : GetOutcome) :
    Except String JSNum :=
  match head with
  | .ok (some s) =>
    if s ≠ "" then .ok ((jsParseInt s).map (fun n => ((n : ℤ) : ℚ)))
    else calculatePageWeightGetFixed url get
  | .ok none => calculatePageWeightGetFixed url get
  | .failed => calculatePageWeightGetFixed url get

/-- The equivalence block of a carbon estimate. -/
structure CarbonEquivalence where
  treesPlanted : JSNum
  kettlesBoiled : JSNum
  kmDriven : JSNum
deriving DecidableEq

/-- Carbon estimate, as returned by calculateCarbon in src/api/index.js. -/
structure CarbonEstimate where
  gramsCO2PerView : JSNum
  equivalence : CarbonEquivalence
  cleanerThan : ℚ
deriving DecidableEq

/-- calculateCarbon (src/api/index.js lines 61-78, src/unnamed/part_000
lines 69-86). -/
def calculateCarbon (bytes : JSNum) (isGreen : Bool) : CarbonEstimate :=
  let megabytes := jsNumDiv bytes (some (1024 * 1024))
  let gramsCO2 := jsNumMul megabytes (some (5/10))
  let gramsCO2 := if isGreen then jsNumMul gramsCO2 (some (5/10)) else gramsCO2
  { gramsCO2PerView := jsToFixed 2 gramsCO2
    equivalence :=
      { treesPlanted := jsToFixed 5 (jsNumDiv gramsCO2 (some 6000))
        kettlesBoiled := jsToFixed 2 (jsNumDiv gramsCO2 (some 15))
        kmDriven := jsToFixed 3 (jsNumDiv gramsCO2 (some 120)) }
    cleanerThan := 50 }

/-- The exact pre-rounding grams value computed inside calculateCarbon
(the local `gramsCO2` before `toFixed(2)`), for rational byte counts. -/
def rawGrams (bytes : ℚ) (isGreen : Bool) : ℚ :=
  let megabytes := bytes / (1024 * 1024)
  let gramsCO2 := megabytes * (5/10)
  if isGreen then gramsCO2 * (5/10) else gramsCO2

/-- The score/ranking pair returned by the score engine. -/
structure ScoreResult where
  ecoScore : JSNum
  ranking : Char
deriving DecidableEq

/-- The ranking ternary chain applied to a (possibly NaN) score, shared
verbatim by src/api/index.js line 105 and src/api/analyze.js lines 63-68. -/
def rankingOfJS (score : JSNum) : Char :=
  if jsNumGe score (some 90) then 'A'
  else if jsNumGe score (some 75) then 'B'
  else if jsNumGe score (some 60) then 'C'
  else if jsNumGe score (some 45) then 'D'
  else if jsNumGe score (some 30) then 'E'
  else 'F'

/-- The same threshold map as a pure function of an integer score (the form
the spec states it in); used to express that the ranking depends on the
rounded score only. -/
def rankingOf (score : ℤ) : Char :=
  if 90 ≤ score then 'A'
  else if 75 ≤ score then 'B'
  else if 60 ≤ score then 'C'
  else if 45 ≤ score then 'D'
  else if 30 ≤ score then 'E'
  else 'F'

/-- Position of a ranking letter in the quality order A < B < C < D < E < F. -/
def rankIdx (c : Char) : ℕ :=
  if c = 'A' then 0
  else if c = 'B' then 1
  else if c = 'C' then 2
  else if c = 'D' then 3
  else if c = 'E' then 4
  else 5

/-- calculateEcoScore (src/api/index.js lines 81-108, src/unnamed/part_000
lines 89-115): piecewise CO2 penalty, green bonus, cleanerThan bonus, clamp
and round, then the ranking thresholds. -/
def calculateEcoScore (carbonData : CarbonEstimate) (hostingData : HostingDescriptor) :
    ScoreResult :=
  let score : JSNum := some 100
  let co2 := carbonData.gramsCO2PerView
  let score :=
    if jsNumLe co2 (some (1/2)) then
      jsNumSub score (jsNumMul co2 (some 20))
    else if jsNumLe co2 (some 1) then
      jsNumSub score (jsNumAdd (some 10) (jsNumMul (jsNumSub co2 (some (1/2))) (some 40)))
    else if jsNumLe co2 (some 2) then
      jsNumSub score (jsNumAdd (some 30) (jsNumMul (jsNumSub co2 (some 1)) (some 15)))
    else
      jsNumSub score (jsNumAdd (some 45) (jsNumMin (jsNumMul (jsNumSub co2 (some 2)) (some 5)) (some 5)))
  let score := if hostingData.isGreen then jsNumAdd score (some 10) else score
  let score :=
    if carbonData.cleanerThan ≠ 0 then
      jsNumAdd score (jsNumMul (some (carbonData.cleanerThan / 100)) (some 5))
    else score
  let score := jsNumMax (some 0) (jsNumMin (some 100) (jsNumRound score))
  { ecoScore := score, ranking := rankingOfJS score }

/-- calculateScore (src/api/analyze.js lines 51-71): the serverless variant of
the score engine — flat penalty 50 above 2 g and no cleanerThan bonus. -/
def calculateScore (carbonData : CarbonEstimate) (hostingData : HostingDescriptor) :
    ScoreResult :=
  let score : JSNum := some 100
  let co2 := carbonData.gramsCO2PerView
  let score :=
    if jsNumLe co2 (some (1/2)) then
      jsNumSub score (jsNumMul co2 (some 20))
    else if jsNumLe co2 (some 1) then
      jsNumSub score (jsNumAdd (some 10) (jsNumMul (jsNumSub co2 (some (1/2))) (some 40)))
    else if jsNumLe co2 (some 2) then
      jsNumSub score (jsNumAdd (some 30) (jsNumMul (jsNumSub co2 (some 1)) (some 15)))
    else
      jsNumSub score (some 50)
  let score := if hostingData.isGreen then jsNumAdd score (some 10) else score
  let score := jsNumMax (some 0) (jsNumMin (some 100) (jsNumRound score))
  { ecoScore := score, ranking := rankingOfJS score }

/-- The assembled analysis result (analyzeSite in src/api/index.js lines
119-135).  `lastAnalyzed` is the analysis timestamp (an ISO string in the
source, modelled as a numeric timestamp). -/
structure AnalysisResult where
  url : String
  ecoScore : JSNum
  hosting : HostingDescriptor
  carbon : CarbonEstimate
  ranking : Char
  pageWeight : JSNum
  lastAnalyzed : ℕ
deriving DecidableEq

/-- analyzeSite (src/api/index.js lines 111-136), as a function of the URL,
the outcomes of the three network calls, and the current time. -/
def analyzeSite (url : String) (lookup : GreenLookup) (head : HeadOutcome)
    (get : GetOutcome) (now : ℕ) : AnalysisResult :=
  let hostingData := checkGreenHosting lookup
  let pageWeight := calculatePageWeight head get
  let carbonData := calculateCarbon pageWeight hostingData.isGreen
  let scoreData := calculateEcoScore carbonData hostingData
  { url := url
    ecoScore := scoreData.ecoScore
    hosting := hostingData
    carbon := carbonData
    ranking := scoreData.ranking
    pageWeight := pageWeight
    lastAnalyzed := now }

/-- analyzeSite of src/unnamed/part_000 (lines 118-144): identical pipeline,
but the weight estimator's fatal failure propagates. -/
def analyzeSiteFixed (url : String) (lookup : GreenLookup) (head : HeadOutcome)
    (get : GetOutcome) (now : ℕ) : Except String AnalysisResult :=
  let hostingData := checkGreenHosting lookup
  match calculatePageWeightFixed url head get with
  | .error e => .error e
  | .ok pageWeight =>
    let carbonData := calculateCarbon pageWeight hostingData.isGreen
    let scoreData := calculateEcoScore carbonData hostingData
    .ok { url := url
          ecoScore := scoreData.ecoScore
          hosting := hostingData
          carbon := carbonData
          ranking := scoreData.ranking
          pageWeight := pageWeight
          lastAnalyzed := now }

/-- The cache: node-cache instantiated with `stdTTL: 86400` seconds.  Each
entry stores its insertion time. -/
abbrev Cache := List (String × AnalysisResult × ℕ)

/-- node-cache `get`: an entry is returned while less than 86400 s old
(entries expire `stdTTL` seconds after insertion, checked on read). -/
def cacheGet (cache : Cache) (key : String) (now : ℕ) : Option AnalysisResult :=
  match cache.find? (fun e => e.1 = key) with
  | some e => if now < e.2.2 + 86400 then some e.2.1 else none
  | none => none

/-- node-cache `set`: replaces any previous entry under the key. -/
def cacheSet (cache : Cache) (key : String) (r : AnalysisResult) (now : ℕ) : Cache :=
  (key, r, now) :: cache.filter (fun e => e.1 ≠ key)

/-- The JSON response sent by the route handler: status code, `status` field,
and the optional `message` / `data` / `cached` fields. -/
structure ApiResponse where
  statusCode : ℕ
  status : String
  message : Option String
  data : Option AnalysisResult
  cached : Option Bool
deriving DecidableEq

/-- One handler invocation: the response, the cache afterwards, and whether
analyzeSite was reached (observational flag for the theorems below; the
source invokes the orchestrator exactly on the path that sets it). -/
structure HandlerStep where
  response : ApiResponse
  cache : Cache
  analyzed : Bool
deriving DecidableEq

/-- The POST /api/analyze handler of src/api/index.js (lines 152-199).
`parseURL` models the runtime `new URL`: `none` when the constructor throws,
otherwise the normalized `href` (unused here — this handler keys the cache by
the raw input string). -/
def handleAnalyze (parseURL : String → Option String) (cache : Cache)
    (urlField : Option String) (lookup : GreenLookup) (head : HeadOutcome)
    (get : GetOutcome) (now : ℕ) : HandlerStep :=
  if jsTruthyStr urlField then
    let url := urlField.getD ""
    match parseURL url with
    | none =>
      { response := { statusCode := 400, status := "error"
                      message := some "L\x27URL fournie n\x27est pas valide."
                      data := none, cached := none }
        cache := cache, analyzed := false }
    | some _ =>
      let cacheKey := "analysis_" ++ url
      match cacheGet cache cacheKey now with
      | some r =>
        { response := { statusCode := 200, status := "success", message := none
                        data := some r, cached := some true }
          cache := cache, analyzed := false }
      | none =>
        let result := analyzeSite url lookup head get now
        { response := { statusCode := 200, status := "success", message := none
                        data := some result, cached := some false }
          cache := cacheSet cache cacheKey result now
          analyzed := true }
  else
    { response := { statusCode := 400, status := "error"
                    message := some "Le paramètre \"url\" est requis."
                    data := none, cached := none }
      cache := cache, analyzed := false }

/-- The POST /api/analyze handler of src/unnamed/part_000 (lines 160-194):
keys the cache by the normalized `validUrl.href` and turns the weight
estimator's fatal failure into a 500 with no cache write. -/
def handleAnalyzeFixed (parseURL : String → Option String) (cache : Cache)
    (urlField : Option String) (lookup : GreenLookup) (head : HeadOutcome)
    (get : GetOutcome) (now : ℕ) : HandlerStep :=
  if jsTruthyStr urlField then
    let url := urlField.getD ""
    match parseURL url with
    | none =>
      { response := { statusCode := 400, status := "error"
                      message := some "L\x27URL fournie n\x27est pas valide."
                      data := none, cached := none }
        cache := cache, analyzed := false }
    | some cleanUrl =>
      let cacheKey := "analysis_" ++ cleanUrl
      match cacheGet cache cacheKey now with
      | some r =>
        { response := { statusCode := 200, status := "success", message := none
                        data := some r, cached := some true }
          cache := cache, analyzed := false }
      | none =>
        match analyzeSiteFixed cleanUrl lookup head get now with
        | .ok result =>
          { response := { statusCode := 200, status := "success", message := none
                          data := some result, cached := some false }
            cache := cacheSet cache cacheKey result now
            analyzed := true }
        | .error e =>
          { response := { statusCode := 500, status := "error", message := some e
                          data := none, cached := none }
            cache := cache, analyzed := true }
  else
    { response := { statusCode := 400, status := "error"
                    message := some "Le paramètre \"url\" est requis."
                    data := none, cached := none }
      cache := cache, analyzed := false }

/-- Modelled from the spec: the runtime WHATWG URL class (`new URL(u).href`)
is not part of this repository; §3 of the spec defines the normalized form as
scheme + host + path.  This model covers plain http(s) URLs: parsing fails
unless the string carries an http(s) scheme and a nonempty remainder, and an
empty path is normalized to "/". -/
def urlHref (u : String) : Option String :=
  if u.data.take 8 = "https://".data then
    let rest := u.data.drop 8
    if rest.isEmpty then none
    else if rest.contains '/' then some u else some (u ++ "/")
  else if u.data.take 7 = "http://".data then
    let rest := u.data.drop 7
    if rest.isEmpty then none
    else if rest.contains '/' then some u else some (u ++ "/")
  else none

/-! ## Helper lemmas -/

lemma toFixedQ_nonneg (d : ℕ) (q : ℚ) (hq : 0 ≤ q) : 0 ≤ toFixedQ d q := by
  unfold toFixedQ
  have h1 : (0 : ℚ) ≤ q * (10 : ℚ) ^ d + 1/2 := by positivity
  have h2 : (0 : ℤ) ≤ Int.floor (q * (10 : ℚ) ^ d + 1/2) := by
    rw [Int.le_floor]
    exact_mod_cast h1
  positivity

lemma carbon_headline_eq (b : ℚ) (g : Bool) :
    (calculateCarbon (some b) g).gramsCO2PerView = some (toFixedQ 2 (rawGrams b g)) := by
  cases g <;> rfl

lemma rawGrams_nonneg (b : ℚ) (hb : 0 ≤ b) (g : Bool) : 0 ≤ rawGrams b g := by
  unfold rawGrams
  cases g <;> simp only [] <;> positivity

lemma rawGrams_halving (b : ℚ) : rawGrams b true = rawGrams b false / 2 := by
  simp only [rawGrams]
  norm_num
  ring

lemma calculateEcoScore_staged (c : CarbonEstimate) (hd : HostingDescriptor) (q : ℚ)
    (h : c.gramsCO2PerView = some q) :
    ∃ x : ℚ, calculateEcoScore c hd =
      { ecoScore := jsNumMax (some 0) (jsNumMin (some 100) (jsNumRound (some x)))
        ranking := rankingOfJS (jsNumMax (some 0) (jsNumMin (some 100) (jsNumRound (some x)))) } := by
  simp only [calculateEcoScore, h]
  split_ifs <;> exact ⟨_, rfl⟩

lemma calculateScore_staged (c : CarbonEstimate) (hd : HostingDescriptor) (q : ℚ)
    (h : c.gramsCO2PerView = some q) :
    ∃ x : ℚ, calculateScore c hd =
      { ecoScore := jsNumMax (some 0) (jsNumMin (some 100) (jsNumRound (some x)))
        ranking := rankingOfJS (jsNumMax (some 0) (jsNumMin (some 100) (jsNumRound (some x)))) } := by
  simp only [calculateScore, h]
  split_ifs <;> exact ⟨_, rfl⟩

lemma rankingOfJS_intCast (n : ℤ) : rankingOfJS (some ((n : ℤ) : ℚ)) = rankingOf n := by
  simp only [rankingOfJS, rankingOf, jsNumGe, decide_eq_true_eq]
  norm_cast

lemma clampRankingProps (x : ℚ) :
    jsNumMax (some 0) (jsNumMin (some 100) (jsNumRound (some x)))
        = some (((max 0 (min 100 (jsRound x)) : ℤ) : ℚ))
    ∧ 0 ≤ max 0 (min 100 (jsRound x)) ∧ max 0 (min 100 (jsRound x)) ≤ 100
    ∧ rankingOfJS (some (((max 0 (min 100 (jsRound x)) : ℤ) : ℚ)))
        = rankingOf (max 0 (min 100 (jsRound x))) := by
  refine ⟨?_, le_max_left _ _,
    max_le (by norm_num) (le_trans (min_le_left _ _) le_rfl), rankingOfJS_intCast _⟩
  simp only [jsNumMax, jsNumMin, jsNumRound, Option.map_some']
  push_cast
  rfl

lemma rankIdx_rankingOf_anti (s t : ℤ) (h : s ≤ t) :
    rankIdx (rankingOf t) ≤ rankIdx (rankingOf s) := by
  unfold rankingOf
  split_ifs <;> simp [rankIdx] <;> omega

lemma checkGreenHosting_degraded (lookup : GreenLookup)
    (h : lookup = .failed ∨ lookup = .ok none
      ∨ ∃ d, lookup = .ok (some d) ∧ d.green = none) :
    (checkGreenHosting lookup).isGreen = false
    ∧ ((checkGreenHosting lookup).hostedBy = "Inconnu"
       ∨ (checkGreenHosting lookup).hostedBy = "Erreur de vérification")
    ∧ (checkGreenHosting lookup).hostedByWebsite = none := by
  rcases h with rfl | rfl | ⟨d, rfl, hg⟩
  · exact ⟨rfl, Or.inr rfl, rfl⟩
  · exact ⟨rfl, Or.inl rfl, rfl⟩
  · simp [checkGreenHosting, hg]

lemma analyzeSiteFixed_eq_of_weight (url : String) (lookup : GreenLookup)
    (head : HeadOutcome) (get : GetOutcome) (now : ℕ) (w : JSNum)
    (h : calculatePageWeightFixed url head get = .ok w) :
    analyzeSiteFixed url lookup head get now =
      .ok { url := url
            ecoScore := (calculateEcoScore (calculateCarbon w (checkGreenHosting lookup).isGreen)
              (checkGreenHosting lookup)).ecoScore
            hosting := checkGreenHosting lookup
            carbon := calculateCarbon w (checkGreenHosting lookup).isGreen
            ranking := (calculateEcoScore (calculateCarbon w (checkGreenHosting lookup).isGreen)
              (checkGreenHosting lookup)).ranking
            pageWeight := w
            lastAnalyzed := now } := by
  unfold analyzeSiteFixed
  rw [h]

lemma analyzeSiteFixed_ok (url : String) (lookup : GreenLookup) (head : HeadOutcome)
    (n now : ℕ) :
    ∃ r, analyzeSiteFixed url lookup head (.ok n) now = .ok r
      ∧ r.hosting = checkGreenHosting lookup := by
  have hw : ∃ w, calculatePageWeightFixed url head (.ok n) = .ok w := by
    cases head with
    | failed => exact ⟨_, rfl⟩
    | ok cl =>
      cases cl with
      | none => exact ⟨_, rfl⟩
      | some s =>
        by_cases hs : s = ""
        · subst hs; exact ⟨_, rfl⟩
        · exact ⟨(jsParseInt s).map (fun m => ((m : ℤ) : ℚ)),
            by simp [calculatePageWeightFixed, hs]⟩
  obtain ⟨w, hw⟩ := hw
  exact ⟨_, analyzeSiteFixed_eq_of_weight url lookup head (.ok n) now w hw, rfl⟩

lemma cacheGet_cacheSet_hit (cache : Cache) (key : String) (r : AnalysisResult)
    (tput tget : ℕ) (h : tget < tput + 86400) :
    cacheGet (cacheSet cache key r tput) key tget = some r := by
  simp [cacheGet, cacheSet, List.find?, h]

/-! ## Claim theorems -/

/-- Claim C1: the claim states that when both the metadata probe and the full
fetch fail, the weight estimator propagates a fatal error so that the handler
returns 500 and writes no cache entry, never substituting a default weight.
The deployed handler (src/api/index.js) does the opposite: it substitutes a
2 MiB default, scores it, caches the result and answers 200; only the revised
variant (src/unnamed/part_000) implements the claimed fatal behaviour. -/
theorem permissive_weight_default_scores_and_caches :
    calculatePageWeight .failed .failed = some (2 * 1024 * 1024)
    ∧ (analyzeSite "https://example.com" .failed .failed .failed 0).pageWeight
        = some (2 * 1024 * 1024)
    ∧ (handleAnalyze urlHref [] (some "https://example.com")
        .failed .failed .failed 0).response.statusCode = 200
    ∧ (handleAnalyze urlHref [] (some "https://example.com")
        .failed .failed .failed 0).response.cached = some false
    ∧ (handleAnalyze urlHref [] (some "https://example.com")
        .failed .failed .failed 0).analyzed = true
    ∧ (handleAnalyze urlHref [] (some "https://example.com")
        .failed .failed .failed 0).cache ≠ []
    ∧ calculatePageWeightFixed "https://example.com/" .failed .failed
        = .error "Impossible de récupérer le contenu de l\x27URL : https://example.com/"
    ∧ (handleAnalyzeFixed urlHref [] (some "https://example.com")
        .failed .failed .failed 0).response.statusCode = 500
    ∧ (handleAnalyzeFixed urlHref [] (some "https://example.com")
        .failed .failed .failed 0).response.cached = none
    ∧ (handleAnalyzeFixed urlHref [] (some "https://example.com")
        .failed .failed .failed 0).cache = [] := by
  refine ⟨rfl, rfl, rfl, rfl, rfl, by decide, rfl, rfl, rfl, rfl⟩

/-- Claim C2, counterexample: with 62915 input bytes the green headline figure
is 0.02 while half the non-green headline figure is 0.015, so the halving
stated on the rounded `gramsCO2PerView` values fails. -/
theorem carbon_rounded_halving_counterexample :
    (calculateCarbon (some 62915) true).gramsCO2PerView
      ≠ ((calculateCarbon (some 62915) false).gramsCO2PerView).map (fun q => q / 2) := by
  norm_num [calculateCarbon, jsNumDiv, jsNumMul, jsToFixed, toFixedQ]

/-- Claim C2, amended: for every byte count b ≥ 0 the headline
`gramsCO2PerView` is nonnegative for both hosting kinds, and the exact
halving holds on the pre-rounding grams value; the headline is that value
rounded to 2 decimal places, so after rounding the halving can fail. -/
theorem carbon_nonneg_and_exact_halving_before_rounding (b : ℚ) (hb : 0 ≤ b) (g : Bool) :
    (∃ q, (calculateCarbon (some b) g).gramsCO2PerView = some q ∧ 0 ≤ q)
    ∧ rawGrams b true = rawGrams b false / 2
    ∧ (calculateCarbon (some b) g).gramsCO2PerView = some (toFixedQ 2 (rawGrams b g)) := by
  exact ⟨⟨toFixedQ 2 (rawGrams b g), carbon_headline_eq b g,
    toFixedQ_nonneg _ _ (rawGrams_nonneg b hb g)⟩, rawGrams_halving b,
    carbon_headline_eq b g⟩

/-- Witness for claim C2's amended theorem, at b = 3 on green hosting. -/
theorem carbon_nonneg_and_exact_halving_before_rounding_witness :
    (0 : ℚ) ≤ 3
    ∧ ((∃ q, (calculateCarbon (some 3) true).gramsCO2PerView = some q ∧ 0 ≤ q)
      ∧ rawGrams 3 true = rawGrams 3 false / 2
      ∧ (calculateCarbon (some 3) true).gramsCO2PerView
          = some (toFixedQ 2 (rawGrams 3 true))) :=
  ⟨by decide, carbon_nonneg_and_exact_halving_before_rounding 3 (by decide) true⟩

/-- Claim C3: for every carbon estimate with a real (non-NaN) headline figure
and every hosting descriptor, both score engines (calculateEcoScore of
src/api/index.js and calculateScore of src/api/analyze.js) return an ecoScore
that is an integer in [0,100], the ranking is the fixed threshold map of that
integer alone, and the threshold map is monotonically non-increasing in the
score. -/
theorem ecoScore_bounded_and_ranking_thresholds (q : ℚ) (eqv : CarbonEquivalence)
    (ct : ℚ) (hd : HostingDescriptor) (s t : ℤ) (hst : s ≤ t) :
    (∃ n : ℤ, (calculateEcoScore ⟨some q, eqv, ct⟩ hd).ecoScore = some ((n : ℤ) : ℚ)
        ∧ 0 ≤ n ∧ n ≤ 100
        ∧ (calculateEcoScore ⟨some q, eqv, ct⟩ hd).ranking = rankingOf n)
    ∧ (∃ m : ℤ, (calculateScore ⟨some q, eqv, ct⟩ hd).ecoScore = some ((m : ℤ) : ℚ)
        ∧ 0 ≤ m ∧ m ≤ 100
        ∧ (calculateScore ⟨some q, eqv, ct⟩ hd).ranking = rankingOf m)
    ∧ rankIdx (rankingOf t) ≤ rankIdx (rankingOf s) := by
  obtain ⟨x, hx⟩ := calculateEcoScore_staged ⟨some q, eqv, ct⟩ hd q rfl
  obtain ⟨y, hy⟩ := calculateScore_staged ⟨some q, eqv, ct⟩ hd q rfl
  obtain ⟨e1, e2, e3, e4⟩ := clampRankingProps x
  obtain ⟨f1, f2, f3, f4⟩ := clampRankingProps y
  refine ⟨⟨max 0 (min 100 (jsRound x)), ?_, e2, e3, ?_⟩,
         ⟨max 0 (min 100 (jsRound y)), ?_, f2, f3, ?_⟩,
         rankIdx_rankingOf_anti s t hst⟩
  · rw [hx]; exact e1
  · rw [hx]; show rankingOfJS _ = _; rw [e1]; exact e4
  · rw [hy]; exact f1
  · rw [hy]; show rankingOfJS _ = _; rw [f1]; exact f4

/-- Witness for claim C3's theorem, at co2 = 1, cleanerThan = 50, green
hosting, and scores 10 ≤ 20. -/
theorem ecoScore_bounded_and_ranking_thresholds_witness :
    (10 : ℤ) ≤ 20
    ∧ ((∃ n : ℤ, (calculateEcoScore ⟨some 1, ⟨some 0, some 0, some 0⟩, 50⟩
            ⟨true, "Inconnu", none⟩).ecoScore = some ((n : ℤ) : ℚ)
          ∧ 0 ≤ n ∧ n ≤ 100
          ∧ (calculateEcoScore ⟨some 1, ⟨some 0, some 0, some 0⟩, 50⟩
              ⟨true, "Inconnu", none⟩).ranking = rankingOf n)
      ∧ (∃ m : ℤ, (calculateScore ⟨some 1, ⟨some 0, some 0, some 0⟩, 50⟩
            ⟨true, "Inconnu", none⟩).ecoScore = some ((m : ℤ) : ℚ)
          ∧ 0 ≤ m ∧ m ≤ 100
          ∧ (calculateScore ⟨some 1, ⟨some 0, some 0, some 0⟩, 50⟩
              ⟨true, "Inconnu", none⟩).ranking = rankingOf m)
      ∧ rankIdx (rankingOf 20) ≤ rankIdx (rankingOf 10)) :=
  ⟨by decide, ecoScore_bounded_and_ranking_thresholds 1 ⟨some 0, some 0, some 0⟩ 50
    ⟨true, "Inconnu", none⟩ 10 20 (by decide)⟩

/-- Claim C4: for co2 above 2 g the score is 100 minus the penalty
45 + min((co2-2)*5, 5), plus 10 when hosting is green, plus the constant
cleanerThan bonus 50/100*5 = 2.5, clamped and rounded; and the 4 MB green
scenario gives gramsCO2PerView 1.0, ecoScore 83 and ranking B. -/
theorem score_engine_formula_and_4mb_scenario (co2v : ℚ) (h2 : 2 < co2v)
    (eqv : CarbonEquivalence) (hd : HostingDescriptor) :
    (calculateEcoScore ⟨some co2v, eqv, 50⟩ hd).ecoScore
      = some (((max 0 (min 100 (jsRound (100 - (45 + min ((co2v - 2) * 5) 5)
          + (if hd.isGreen then (10 : ℚ) else 0) + 50 / 100 * 5))) : ℤ) : ℚ))
    ∧ (calculateCarbon (some (4 * 1024 * 1024)) true).gramsCO2PerView = some 1
    ∧ (calculateEcoScore (calculateCarbon (some (4 * 1024 * 1024)) true)
        ⟨true, "Inconnu", none⟩).ecoScore = some 83
    ∧ (calculateEcoScore (calculateCarbon (some (4 * 1024 * 1024)) true)
        ⟨true, "Inconnu", none⟩).ranking = 'B' := by
  refine ⟨?_, ?_⟩
  · have hc1 : jsNumLe (some co2v) (some (1/2)) = false := by
      simp only [jsNumLe, decide_eq_false_iff_not]; intro h; linarith
    have hc2 : jsNumLe (some co2v) (some 1) = false := by
      simp only [jsNumLe, decide_eq_false_iff_not]; intro h; linarith
    have hc3 : jsNumLe (some co2v) (some 2) = false := by
      simp only [jsNumLe, decide_eq_false_iff_not]; intro h; linarith
    rcases hd with ⟨green, hb, hw⟩
    cases green <;>
    · simp only [calculateEcoScore, hc1, hc2, hc3, Bool.false_eq_true, if_false]
      norm_num [jsNumSub, jsNumAdd, jsNumMul, jsNumMin, jsNumMax, jsNumRound, jsRound]
  · norm_num [calculateCarbon, calculateEcoScore, jsNumDiv, jsNumMul, jsNumSub, jsNumAdd,
      jsNumMin, jsNumMax, jsNumRound, jsNumLe, jsNumGe, jsToFixed, toFixedQ, jsRound,
      rankingOfJS]

/-- Witness for claim C4's theorem, at co2 = 3 on non-green hosting. -/
theorem score_engine_formula_and_4mb_scenario_witness :
    (2 : ℚ) < 3
    ∧ ((calculateEcoScore ⟨some 3, ⟨some 0, some 0, some 0⟩, 50⟩
          ⟨false, "Inconnu", none⟩).ecoScore
        = some (((max 0 (min 100 (jsRound (100 - (45 + min (((3 : ℚ) - 2) * 5) 5)
            + (if (⟨false, "Inconnu", none⟩ : HostingDescriptor).isGreen then (10 : ℚ) else 0)
            + 50 / 100 * 5))) : ℤ) : ℚ))
      ∧ (calculateCarbon (some (4 * 1024 * 1024)) true).gramsCO2PerView = some 1
      ∧ (calculateEcoScore (calculateCarbon (some (4 * 1024 * 1024)) true)
          ⟨true, "Inconnu", none⟩).ecoScore = some 83
      ∧ (calculateEcoScore (calculateCarbon (some (4 * 1024 * 1024)) true)
          ⟨true, "Inconnu", none⟩).ranking = 'B') :=
  ⟨by decide, score_engine_formula_and_4mb_scenario 3 (by decide)
    ⟨some 0, some 0, some 0⟩ ⟨false, "Inconnu", none⟩⟩

/-- Claim C5, counterexample: for a 1 MB page on non-green hosting the
pipeline of src/api/index.js does not return ecoScore 90 — the constant
cleanerThan bonus (+2.5) is also added, giving 92.5, rounded half-up to 93. -/
theorem one_mb_nongreen_score_not_90 :
    (calculateEcoScore (calculateCarbon (some 1048576) false)
      ⟨false, "Inconnu", none⟩).ecoScore ≠ some 90 := by
  norm_num [calculateCarbon, calculateEcoScore, jsNumDiv, jsNumMul, jsNumSub, jsNumAdd,
    jsNumMin, jsNumMax, jsNumRound, jsNumLe, jsNumGe, jsToFixed, toFixedQ, jsRound,
    rankingOfJS]

/-- Claim C5, amended: for a 1 MB page on non-green hosting
gramsCO2PerView = 0.50 and the first-band penalty 0.5*20 = 10 applies, but
the constant cleanerThan bonus +2.5 also applies, so the ecoScore is
round(100 - 10 + 2.5) = 93 and the ranking is A. -/
theorem one_mb_nongreen_scenario :
    (calculateCarbon (some 1048576) false).gramsCO2PerView = some (1/2)
    ∧ (calculateEcoScore (calculateCarbon (some 1048576) false)
        ⟨false, "Inconnu", none⟩).ecoScore = some 93
    ∧ (calculateEcoScore (calculateCarbon (some 1048576) false)
        ⟨false, "Inconnu", none⟩).ranking = 'A' := by
  norm_num [calculateCarbon, calculateEcoScore, jsNumDiv, jsNumMul, jsNumSub, jsNumAdd,
    jsNumMin, jsNumMax, jsNumRound, jsNumLe, jsNumGe, jsToFixed, toFixedQ, jsRound,
    rankingOfJS]

/-- Claim C6: whenever the green-hosting lookup fails or returns no
definitive verdict, the hosting checker returns a degraded descriptor with
isGreen false, a placeholder hostedBy and no hostedByWebsite, and the
analysis still produces a full result (shown on the fatal-weight variant,
whose only abort source is the weight estimator). -/
theorem hosting_lookup_failure_degrades_and_continues (lookup : GreenLookup)
    (h : lookup = .failed ∨ lookup = .ok none
      ∨ ∃ d, lookup = .ok (some d) ∧ d.green = none) :
    (checkGreenHosting lookup).isGreen = false
    ∧ ((checkGreenHosting lookup).hostedBy = "Inconnu"
       ∨ (checkGreenHosting lookup).hostedBy = "Erreur de vérification")
    ∧ (checkGreenHosting lookup).hostedByWebsite = none
    ∧ ∀ (url : String) (head : HeadOutcome) (n now : ℕ),
        ∃ r, analyzeSiteFixed url lookup head (.ok n) now = .ok r
          ∧ r.hosting = checkGreenHosting lookup := by
  obtain ⟨h1, h2, h3⟩ := checkGreenHosting_degraded lookup h
  exact ⟨h1, h2, h3, fun url head n now => analyzeSiteFixed_ok url lookup head n now⟩

/-- Witness for claim C6's theorem, at a failed registry lookup. -/
theorem hosting_lookup_failure_degrades_and_continues_witness :
    (checkGreenHosting .failed).isGreen = false
    ∧ ((checkGreenHosting .failed).hostedBy = "Inconnu"
       ∨ (checkGreenHosting .failed).hostedBy = "Erreur de vérification")
    ∧ (checkGreenHosting .failed).hostedByWebsite = none
    ∧ ∃ r, analyzeSiteFixed "https://example.com/" .failed .failed (.ok 1024) 7 = .ok r
        ∧ r.hosting = checkGreenHosting .failed := by
  obtain ⟨h1, h2, h3, h4⟩ :=
    hosting_lookup_failure_degrades_and_continues .failed (Or.inl rfl)
  exact ⟨h1, h2, h3, h4 "https://example.com/" .failed 1024 7⟩

/-- Claim C7: analyzing the same URL twice within the 24-hour TTL returns
cached:false then cached:true, and the second response's data is the stored
result verbatim, original analysis timestamp included, regardless of the
second request's network outcomes. -/
theorem cache_idempotent_within_ttl (parseURL : String → Option String)
    (cache : Cache) (u href : String) (hu : u ≠ "") (hp : parseURL u = some href)
    (t1 t2 : ℕ) (hmiss : cacheGet cache ("analysis_" ++ u) t1 = none)
    (httl : t2 < t1 + 86400) (lk lk2 : GreenLookup) (hd hd2 : HeadOutcome)
    (g g2 : GetOutcome) :
    (handleAnalyze parseURL cache (some u) lk hd g t1).response.cached = some false
    ∧ (handleAnalyze parseURL cache (some u) lk hd g t1).response.data
        = some (analyzeSite u lk hd g t1)
    ∧ (handleAnalyze parseURL (handleAnalyze parseURL cache (some u) lk hd g t1).cache
        (some u) lk2 hd2 g2 t2).response.cached = some true
    ∧ (handleAnalyze parseURL (handleAnalyze parseURL cache (some u) lk hd g t1).cache
        (some u) lk2 hd2 g2 t2).response.data = some (analyzeSite u lk hd g t1)
    ∧ (analyzeSite u lk hd g t1).lastAnalyzed = t1 := by
  have hstep1 : handleAnalyze parseURL cache (some u) lk hd g t1 =
      { response := { statusCode := 200, status := "success", message := none
                      data := some (analyzeSite u lk hd g t1), cached := some false }
        cache := cacheSet cache ("analysis_" ++ u) (analyzeSite u lk hd g t1) t1
        analyzed := true } := by
    simp [handleAnalyze, jsTruthyStr, hu, hp, hmiss]
  rw [hstep1]
  have hstep2 : handleAnalyze parseURL
      (cacheSet cache ("analysis_" ++ u) (analyzeSite u lk hd g t1) t1)
      (some u) lk2 hd2 g2 t2 =
      { response := { statusCode := 200, status := "success", message := none
                      data := some (analyzeSite u lk hd g t1), cached := some true }
        cache := cacheSet cache ("analysis_" ++ u) (analyzeSite u lk hd g t1) t1
        analyzed := false } := by
    simp [handleAnalyze, jsTruthyStr, hu, hp,
      cacheGet_cacheSet_hit cache ("analysis_" ++ u) (analyzeSite u lk hd g t1) t1 t2 httl]
  rw [hstep2]
  exact ⟨rfl, rfl, rfl, rfl, rfl⟩

/-- Witness for claim C7's theorem: the same URL analyzed at t = 0 and again
at t = 86399 with different network outcomes on the second request. -/
theorem cache_idempotent_within_ttl_witness :
    (handleAnalyze urlHref [] (some "https://example.com")
        .failed .failed (.ok 1048576) 0).response.cached = some false
    ∧ (handleAnalyze urlHref [] (some "https://example.com")
        .failed .failed (.ok 1048576) 0).response.data
        = some (analyzeSite "https://example.com" .failed .failed (.ok 1048576) 0)
    ∧ (handleAnalyze urlHref (handleAnalyze urlHref [] (some "https://example.com")
        .failed .failed (.ok 1048576) 0).cache (some "https://example.com")
        (.ok none) (.ok none) .failed 86399).response.cached = some true
    ∧ (handleAnalyze urlHref (handleAnalyze urlHref [] (some "https://example.com")
        .failed .failed (.ok 1048576) 0).cache (some "https://example.com")
        (.ok none) (.ok none) .failed 86399).response.data
        = some (analyzeSite "https://example.com" .failed .failed (.ok 1048576) 0)
    ∧ (analyzeSite "https://example.com" .failed .failed (.ok 1048576) 0).lastAnalyzed = 0 :=
  cache_idempotent_within_ttl urlHref [] "https://example.com" "https://example.com/"
    (by decide) rfl 0 86399 rfl (by decide) .failed (.ok none) .failed (.ok none)
    (.ok 1048576) .failed

/-- Claim C8: the claim states the cache key is the normalized URL.  The
handler of src/api/index.js keys the cache by the raw input string, so the
two inputs "https://example.com" and "https://example.com/", which normalize
to the same URL, miss each other's entries and are analyzed twice; the
revised handler of src/unnamed/part_000 keys by the normalized href and
serves the second request from the cache. -/
theorem cache_key_raw_url_not_normalized :
    urlHref "https://example.com" = some "https://example.com/"
    ∧ urlHref "https://example.com/" = some "https://example.com/"
    ∧ ("analysis_" ++ "https://example.com" : String)
        ≠ "analysis_" ++ "https://example.com/"
    ∧ (handleAnalyze urlHref
        (handleAnalyze urlHref [] (some "https://example.com")
          .failed .failed (.ok 1048576) 0).cache
        (some "https://example.com/") .failed .failed (.ok 1048576) 1).response.cached
        = some false
    ∧ (handleAnalyze urlHref
        (handleAnalyze urlHref [] (some "https://example.com")
          .failed .failed (.ok 1048576) 0).cache
        (some "https://example.com/") .failed .failed (.ok 1048576) 1).analyzed = true
    ∧ (handleAnalyze urlHref
        (handleAnalyze urlHref [] (some "https://example.com")
          .failed .failed (.ok 1048576) 0).cache
        (some "https://example.com/") .failed .failed (.ok 1048576) 1).cache.length = 2
    ∧ (handleAnalyzeFixed urlHref
        (handleAnalyzeFixed urlHref [] (some "https://example.com")
          .failed .failed (.ok 1048576) 0).cache
        (some "https://example.com/") .failed .failed (.ok 1048576) 1).response.cached
        = some true
    ∧ (handleAnalyzeFixed urlHref
        (handleAnalyzeFixed urlHref [] (some "https://example.com")
          .failed .failed (.ok 1048576) 0).cache
        (some "https://example.com/") .failed .failed (.ok 1048576) 1).analyzed = false := by
  refine ⟨rfl, rfl, by decide, rfl, rfl, rfl, rfl, rfl⟩

/-- Claim C9: a request whose body lacks a truthy url field, or whose url
fails URL parsing, is answered 400 with a structured error, the orchestrator
is never invoked and the cache is unchanged — in both handler variants. -/
theorem invalid_input_rejected_before_orchestrator (parseURL : String → Option String)
    (cache : Cache) (urlField : Option String) (lk : GreenLookup) (hd : HeadOutcome)
    (g : GetOutcome) (now : ℕ)
    (h : urlField = none ∨ urlField = some ""
      ∨ ∃ u, urlField = some u ∧ parseURL u = none) :
    (handleAnalyze parseURL cache urlField lk hd g now).response.statusCode = 400
    ∧ (handleAnalyze parseURL cache urlField lk hd g now).response.status = "error"
    ∧ (handleAnalyze parseURL cache urlField lk hd g now).response.message.isSome = true
    ∧ (handleAnalyze parseURL cache urlField lk hd g now).cache = cache
    ∧ (handleAnalyze parseURL cache urlField lk hd g now).analyzed = false
    ∧ (handleAnalyzeFixed parseURL cache urlField lk hd g now).response.statusCode = 400
    ∧ (handleAnalyzeFixed parseURL cache urlField lk hd g now).cache = cache
    ∧ (handleAnalyzeFixed parseURL cache urlField lk hd g now).analyzed = false := by
  rcases h with rfl | rfl | ⟨u, rfl, hp⟩
  · exact ⟨rfl, rfl, rfl, rfl, rfl, rfl, rfl, rfl⟩
  · exact ⟨rfl, rfl, rfl, rfl, rfl, rfl, rfl, rfl⟩
  · by_cases hu : u = ""
    · subst hu; exact ⟨rfl, rfl, rfl, rfl, rfl, rfl, rfl, rfl⟩
    · refine ⟨?_, ?_, ?_, ?_, ?_, ?_, ?_, ?_⟩ <;>
        simp [handleAnalyze, handleAnalyzeFixed, jsTruthyStr, hu, hp]

/-- Witness for claim C9's theorem, at the unparsable input "not a url". -/
theorem invalid_input_rejected_before_orchestrator_witness :
    (handleAnalyze urlHref [] (some "not a url") .failed .failed .failed 0).response.statusCode = 400
    ∧ (handleAnalyze urlHref [] (some "not a url") .failed .failed .failed 0).response.status = "error"
    ∧ (handleAnalyze urlHref [] (some "not a url") .failed .failed .failed 0).response.message.isSome = true
    ∧ (handleAnalyze urlHref [] (some "not a url") .failed .failed .failed 0).cache = []
    ∧ (handleAnalyze urlHref [] (some "not a url") .failed .failed .failed 0).analyzed = false
    ∧ (handleAnalyzeFixed urlHref [] (some "not a url") .failed .failed .failed 0).response.statusCode = 400
    ∧ (handleAnalyzeFixed urlHref [] (some "not a url") .failed .failed .failed 0).cache = []
    ∧ (handleAnalyzeFixed urlHref [] (some "not a url") .failed .failed .failed 0).analyzed = false :=
  invalid_input_rejected_before_orchestrator urlHref [] (some "not a url")
    .failed .failed .failed 0 (Or.inr (Or.inr ⟨"not a url", rfl, rfl⟩))

/-- Claim C10: a successful metadata probe whose content-length header is the
non-numeric string "abc" makes calculatePageWeight return parseInt's NaN
unchecked, and that NaN flows through the carbon headline and the ecoScore,
whatever the GET outcome and hosting descriptor are. -/
theorem nonnumeric_content_length_nan_propagates (g : GetOutcome) (hd : HostingDescriptor) :
    jsParseInt "abc" = none
    ∧ calculatePageWeight (.ok (some "abc")) g = none
    ∧ (calculateCarbon none hd.isGreen).gramsCO2PerView = none
    ∧ (calculateEcoScore (calculateCarbon none hd.isGreen) hd).ecoScore = none := by
  refine ⟨by decide, rfl, ?_, ?_⟩
  · cases hd.isGreen <;> rfl
  · rcases hd with ⟨green, hb, hw⟩
    cases green <;> rfl

end EcoScore
